import Mathlib

/-!
Shallow embedding of the coordination core of `shared-files-rs`
(single-writer, multiple-reader in-process file sharing).

The embedding mirrors, definition by definition:
  * `WriteState` and the `Sentinel` record from `src/lib.rs`
    (the waker `HashMap<Uuid, Waker>` is modelled as an association list
    with unique keys; `Uuid` and `Waker` are opaque and modelled as `Nat`),
  * the writer operations from `src/writer.rs`
    (`sync_all`, `sync_data`, `complete`, `complete_no_sync`,
    `sync_committed_and_written`, `finalize_state`, `update_state`,
    `handle_poll_write_result`, `poll_write`, `poll_flush`,
    `poll_shutdown`, `poll_write_vectored`, and the pinned drop),
  * the reader poll from `src/reader.rs` (`poll_read`).

Asynchronous backing-file calls are modelled by passing their outcome in
as a parameter: `Option (Except ε α)` where `none` stands for
`Poll::Pending` and `some` for `Poll::Ready`.  A Rust panic (the
`assert_eq!` in `finalize_state`) is modelled as the `Option.none`
result of the operation: no store and no wake happens.
-/

set_option linter.unusedVariables false
set_option linter.unreachableTactic false
set_option linter.unusedTactic false

namespace SharedFiles

/-- Mirror of `ErrorKind` for the error kinds the crate constructs or
inspects; backing errors keep an opaque kind code. -/
inductive ErrorKind where
  | BrokenPipe : ErrorKind
  | Other : ErrorKind
  | BackingKind : Nat → ErrorKind
deriving DecidableEq, Repr

/-- Mirror of `std::io::Error` values that can flow through the crate:
the writer-side `Error::new(ErrorKind::BrokenPipe, WriteError::FileClosed)`,
the reader-side `Error::new(ErrorKind::BrokenPipe, ReadError::FileClosed)`,
the writer-side `Error::from(ErrorKind::Other)` produced in the `Failed`
phase, and opaque pass-through errors of the backing file. -/
inductive IoError where
  | writeFileClosed : IoError
  | readFileClosed : IoError
  | otherError : IoError
  | backing : Nat → IoError
deriving DecidableEq, Repr

/-- The `std::io::ErrorKind` of each modelled error value. -/
def IoError.kind : IoError → ErrorKind
  | .writeFileClosed => .BrokenPipe
  | .readFileClosed => .BrokenPipe
  | .otherError => .Other
  | .backing c => .BackingKind c

/-- Mirror of `CompleteWritingError` from `src/errors.rs`. -/
inductive CompleteWritingError where
  | Io : IoError → CompleteWritingError
  | FileWritingFailed : CompleteWritingError
  | SyncError : CompleteWritingError
deriving DecidableEq, Repr

/-- Mirror of `WriteState` from `src/lib.rs`: `Pending(committed, written)`,
`Completed(size)` or `Failed`. -/
inductive WriteState where
  | Pending : Nat → Nat → WriteState
  | Completed : Nat → WriteState
  | Failed : WriteState
deriving DecidableEq, Repr

/-- Whether a state is in the `Pending` phase. -/
def WriteState.isPendingPhase : WriteState → Bool
  | .Pending _ _ => true
  | _ => false

/-- The waker table: `HashMap<Uuid, Waker>` modelled as an association
list of (reader id, waker handle) pairs. -/
abbrev WakerTable : Type := List (Nat × Nat)

/-- Mirror of `Sentinel` from `src/lib.rs`, restricted to the fields the
coordination logic touches: the atomic `state` cell and the mutex-guarded
`wakers` table.  The `original` backing file handle carries no state the
claims are about. -/
structure Sentinel where
  state : WriteState
  wakers : WakerTable
deriving DecidableEq, Repr

/-- Mirror of `Sentinel::wake_readers`: drain the table and wake every
drained entry.  Returns the new sentinel and the drained entries (the
readers that actually got woken). -/
def wakeReaders (sen : Sentinel) : Sentinel × WakerTable :=
  (⟨sen.state, []⟩, sen.wakers)

/-- Mirror of `Sentinel::register_reader_waker`: insert the waker for
`id`, or replace the stored one if `id` is already present. -/
def registerWaker (id w : Nat) : WakerTable → WakerTable
  | [] => [(id, w)]
  | (i, x) :: rest =>
      if i = id then (i, w) :: rest else (i, x) :: registerWaker id w rest

/-- Mirror of `Sentinel::remove_reader_waker`: remove the entry for `id`
if present. -/
def removeWaker (id : Nat) (tbl : WakerTable) : WakerTable :=
  tbl.filter (fun p => p.1 ≠ id)

/-- Mirror of `Sentinel::register_reader_waker` lifted to the sentinel. -/
def registerReaderWaker (sen : Sentinel) (id w : Nat) : Sentinel :=
  ⟨sen.state, registerWaker id w sen.wakers⟩

/-- Mirror of `Sentinel::remove_reader_waker` lifted to the sentinel. -/
def removeReaderWaker (sen : Sentinel) (id : Nat) : Sentinel :=
  ⟨sen.state, removeWaker id sen.wakers⟩

/-- The initial sentinel built by `From<T> for SharedFile<T>` in
`src/lib.rs`: state `Pending(0, 0)` and an empty waker table. -/
def initSentinel : Sentinel := ⟨.Pending 0 0, []⟩

/-- Mirror of `SharedFileWriter::sync_committed_and_written`:
in `Pending(_, written)` store `Pending(written, written)`; otherwise
leave the state alone. -/
def syncCommittedAndWritten : WriteState → WriteState
  | .Pending _committed written => .Pending written written
  | s => s

/-- Mirror of `SharedFileWriter::sync_all`.  The backing
`file.sync_all()` outcome comes in as `backing` (sync errors are opaque,
modelled by a `Nat` code).  On a backing error the `?` operator
propagates it immediately: no state change, no wake.  On success the
committed count is synced and all readers are woken. -/
def syncAll (sen : Sentinel) (backing : Except Nat Unit) :
    Sentinel × WakerTable × Except Nat Unit :=
  match backing with
  | .error e => (sen, [], .error e)
  | .ok _ =>
      let sen1 : Sentinel := ⟨syncCommittedAndWritten sen.state, sen.wakers⟩
      let p := wakeReaders sen1
      (p.1, p.2, .ok ())

/-- Mirror of `SharedFileWriter::sync_data`; the body is identical to
`sync_all` up to which durability guarantee the backing call requests. -/
def syncData (sen : Sentinel) (backing : Except Nat Unit) :
    Sentinel × WakerTable × Except Nat Unit :=
  match backing with
  | .error e => (sen, [], .error e)
  | .ok _ =>
      let sen1 : Sentinel := ⟨syncCommittedAndWritten sen.state, sen.wakers⟩
      let p := wakeReaders sen1
      (p.1, p.2, .ok ())

/-- Mirror of `SharedFileWriter::finalize_state`.  In `Pending(c, w)` the
source runs `assert_eq!(c, w, ...)` before storing `Completed(w)`; the
assertion failure (a Rust panic, which skips both the store and the
`wake_readers` call) is modelled as `none`. -/
def finalizeState (sen : Sentinel) :
    Option (Sentinel × WakerTable × Except CompleteWritingError Unit) :=
  match sen.state with
  | .Pending c w =>
      if c = w then
        let p := wakeReaders ⟨.Completed w, sen.wakers⟩
        some (p.1, p.2, .ok ())
      else
        none
  | .Completed _ =>
      let p := wakeReaders sen
      some (p.1, p.2, .ok ())
  | .Failed =>
      let p := wakeReaders sen
      some (p.1, p.2, .error .FileWritingFailed)

/-- Mirror of `SharedFileWriter::update_state`: fold the number of bytes
the backing file accepted into the state.  Only the `Pending` branch
stores a new state. -/
def updateState (s : WriteState) (written : Nat) :
    WriteState × Except IoError Nat :=
  match s with
  | .Pending committed previouslyWritten =>
      let count := previouslyWritten + written
      (.Pending committed count, .ok count)
  | .Completed count =>
      (s, if written ≠ 0 then .error .writeFileClosed else .ok count)
  | .Failed => (s, .error .otherError)

/-- Mirror of `SharedFileWriter::handle_poll_write_result`: on a ready
successful backing write, update the byte count (the state store happens
inside `update_state`); on a ready backing error, store `Failed` and
wake all readers; on `Poll::Pending`, do nothing. -/
def handlePollWriteResult (sen : Sentinel)
    (poll : Option (Except IoError Nat)) :
    Sentinel × WakerTable × Option (Except IoError Nat) :=
  match poll with
  | none => (sen, [], none)
  | some (.ok written) =>
      let r := updateState sen.state written
      (⟨r.1, sen.wakers⟩, [],
        some (match r.2 with
          | .ok _ => .ok written
          | .error e => .error e))
  | some (.error e) =>
      let p := wakeReaders ⟨.Failed, sen.wakers⟩
      (p.1, p.2, some (.error e))

/-- Mirror of `SharedFileWriter::poll_write`.  The buffer is submitted to
the backing file first; `backing` is the response of the backing file to the
full `bufLen`-byte buffer (accepting at most `bufLen` bytes) and only
then is the shared state consulted, via `handle_poll_write_result`.  The
requested length `bufLen` itself is never consulted. -/
def pollWrite (sen : Sentinel) (bufLen : Nat)
    (backing : Option (Except IoError Nat)) :
    Sentinel × WakerTable × Option (Except IoError Nat) :=
  handlePollWriteResult sen backing

/-- Mirror of `SharedFileWriter::poll_write_vectored`; identical handling
with the total length of the io-slices in place of the buffer length. -/
def pollWriteVectored (sen : Sentinel) (totalLen : Nat)
    (backing : Option (Except IoError Nat)) :
    Sentinel × WakerTable × Option (Except IoError Nat) :=
  handlePollWriteResult sen backing

/-- Mirror of `SharedFileWriter::poll_flush`: on backing success, sync
committed to written and wake all readers; on backing error, store
`Failed` and wake all readers. -/
def pollFlush (sen : Sentinel) (backing : Option (Except IoError Unit)) :
    Sentinel × WakerTable × Option (Except IoError Unit) :=
  match backing with
  | none => (sen, [], none)
  | some (.ok _) =>
      let p := wakeReaders ⟨syncCommittedAndWritten sen.state, sen.wakers⟩
      (p.1, p.2, some (.ok ()))
  | some (.error e) =>
      let p := wakeReaders ⟨.Failed, sen.wakers⟩
      (p.1, p.2, some (.error e))

/-- Mirror of `SharedFileWriter::poll_shutdown`: on backing success, a
`Pending(c, w)` state becomes `Completed(w)` (the source only
`debug_assert_eq!`s `c = w`, which is compiled out in release builds and
modelled as a no-op); no reader is woken.  On backing error, store
`Failed` without waking anyone. -/
def pollShutdown (sen : Sentinel) (backing : Option (Except IoError Unit)) :
    Sentinel × WakerTable × Option (Except IoError Unit) :=
  match backing with
  | none => (sen, [], none)
  | some (.ok _) =>
      match sen.state with
      | .Pending _committed w => (⟨.Completed w, sen.wakers⟩, [], some (.ok ()))
      | s => (⟨s, sen.wakers⟩, [], some (.ok ()))
  | some (.error e) => (⟨.Failed, sen.wakers⟩, [], some (.error e))

/-- Mirror of `SharedFileWriter::complete_no_sync`: run `finalize_state`,
then (because `self` is consumed and dropped at the end of the call) the
pinned drop runs `finalize_state` a second time. -/
def completeNoSync (sen : Sentinel) :
    Option (Sentinel × WakerTable × Except CompleteWritingError Unit) :=
  match finalizeState sen with
  | none => none
  | some (sen1, w1, res) =>
      match finalizeState sen1 with
      | none => none
      | some (sen2, w2, _) => some (sen2, w1 ++ w2, res)

/-- Mirror of `SharedFileWriter::complete`: run `sync_all`; if it fails,
return `Err(CompleteWritingError::SyncError)` — consuming `self`, whose
drop then runs `finalize_state`.  If the sync succeeds, delegate to
`complete_no_sync`. -/
def complete (sen : Sentinel) (backingSync : Except Nat Unit) :
    Option (Sentinel × WakerTable × Except CompleteWritingError Unit) :=
  match syncAll sen backingSync with
  | (sen1, w1, .error _) =>
      match finalizeState sen1 with
      | none => none
      | some (sen2, w2, _) => some (sen2, w1 ++ w2, .error .SyncError)
  | (sen1, w1, .ok _) =>
      match completeNoSync sen1 with
      | none => none
      | some (sen2, w2, res) => some (sen2, w1 ++ w2, res)

/-- Mirror of the `PinnedDrop` impl for `SharedFileWriter`: run
`finalize_state` and discard its result (`.ok()`).  The drop consults no
backing-file capability at all — in particular it performs no flush or
sync — which the type of this definition makes structural: it takes no
backing outcome. -/
def dropWriter (sen : Sentinel) : Option (Sentinel × WakerTable) :=
  match finalizeState sen with
  | none => none
  | some (sen1, w1, _) => some (sen1, w1)

/-- The per-reader record from `src/reader.rs` that the poll logic
touches: the reader `id` and its `read` counter (`bytes_read`). -/
structure ReaderRec where
  id : Nat
  bytesRead : Nat
deriving DecidableEq, Repr

/-- Outcome of one `poll_read` call, as seen by the caller: `pending`
for `Poll::Pending`, `readyOk n` for `Poll::Ready(Ok(()))` with `n`
bytes appended to the caller buffer, `readyErr e` for
`Poll::Ready(Err(e))`. -/
inductive RPoll where
  | pending : RPoll
  | readyOk : Nat → RPoll
  | readyErr : IoError → RPoll
deriving DecidableEq, Repr

/-- The tail of `SharedFileReader::poll_read` after the `current_total`
frontier has been selected from the phase snapshot.  `bufRemaining` is
the remaining capacity of the caller buffer; `backing` is the
backing-file poll outcome on the clamped buffer, where `some (Except.ok provided)`
means the backing read had `provided` bytes on offer — a `ReadBuf` of
capacity `read_at_most` can be filled with at most
`min provided read_at_most` of them, which is exactly the guarantee of the
`ReadBuf` API.  `recheck` is the second `state.load()` the source
performs when the backing read filled nothing (in a concurrent run it
may differ from the snapshot, so it is a separate parameter). -/
def readerPollTail (sen : Sentinel) (r : ReaderRec) (waker : Nat)
    (bufRemaining : Nat) (backing : Option (Except IoError Nat))
    (recheck : WriteState) (currentTotal : Nat) :
    Sentinel × ReaderRec × RPoll :=
  let readAtMost := min (currentTotal - r.bytesRead) bufRemaining
  match backing with
  | some res =>
      let sen1 := removeReaderWaker sen r.id
      match res with
      | .error e => (sen1, r, .readyErr e)
      | .ok provided =>
          let readNow := min provided readAtMost
          if readNow ≠ 0 then
            (sen1, ⟨r.id, r.bytesRead + readNow⟩, .readyOk readNow)
          else
            match recheck with
            | .Pending _ _ => (registerReaderWaker sen1 r.id waker, r, .pending)
            | .Completed _ => (sen1, r, .readyOk 0)
            | .Failed => (sen1, r, .readyErr .readFileClosed)
  | none => (registerReaderWaker sen r.id waker, r, .pending)

/-- Mirror of `SharedFileReader::poll_read` from `src/reader.rs`.  The
head dispatches on the phase snapshot: at the frontier
(`bytes_read == committed`) the reader registers its waker and parks; at
the end of a completed file it reports end-of-stream; in `Failed` it
fails with the broken-pipe `ReadError::FileClosed`; otherwise the read
proceeds on a buffer clamped to `current_total - bytes_read`. -/
def readerPoll (sen : Sentinel) (r : ReaderRec) (waker : Nat)
    (bufRemaining : Nat) (backing : Option (Except IoError Nat))
    (recheck : WriteState) : Sentinel × ReaderRec × RPoll :=
  match sen.state with
  | .Pending committed _written =>
      if r.bytesRead = committed then
        (registerReaderWaker sen r.id waker, r, .pending)
      else
        readerPollTail sen r waker bufRemaining backing recheck committed
  | .Completed count =>
      if r.bytesRead = count then
        (sen, r, .readyOk 0)
      else
        readerPollTail sen r waker bufRemaining backing recheck count
  | .Failed => (sen, r, .readyErr .readFileClosed)

/-- Labels for the writer operations, each carrying the backing-file
response for its suspension point. -/
inductive WOp where
  | write : Nat → Option (Except IoError Nat) → WOp
  | writeVectored : Nat → Option (Except IoError Nat) → WOp
  | flush : Option (Except IoError Unit) → WOp
  | syncDataOp : Except Nat Unit → WOp
  | syncAllOp : Except Nat Unit → WOp
  | shutdownOp : Option (Except IoError Unit) → WOp
  | completeOp : Except Nat Unit → WOp
  | completeNoSyncOp : WOp
  | dropOp : WOp

/-- Effect of one writer operation on the sentinel; `none` models a
panic (the failed assertion in `finalize_state`), after which no store
has happened. -/
def wstep (sen : Sentinel) : WOp → Option Sentinel
  | .write bufLen backing => some (pollWrite sen bufLen backing).1
  | .writeVectored totalLen backing => some (pollWriteVectored sen totalLen backing).1
  | .flush backing => some (pollFlush sen backing).1
  | .syncDataOp backing => some (syncData sen backing).1
  | .syncAllOp backing => some (syncAll sen backing).1
  | .shutdownOp backing => some (pollShutdown sen backing).1
  | .completeOp backing => (complete sen backing).map (·.1)
  | .completeNoSyncOp => (completeNoSync sen).map (·.1)
  | .dropOp => (dropWriter sen).map (·.1)

/-- Run a sequence of writer operations from a sentinel. -/
def wrun (sen : Sentinel) : List WOp → Option Sentinel
  | [] => some sen
  | op :: ops =>
      match wstep sen op with
      | none => none
      | some sen1 => wrun sen1 ops

/-- Labels for combined writer and reader operations on the shared
sentinel.  Reader polls, reader drops and waker upserts only touch the
waker table (`register_reader_waker` / `remove_reader_waker`); they
never store the phase. -/
inductive COp where
  | writer : WOp → COp
  | readerPollOp : ReaderRec → Nat → Nat → Option (Except IoError Nat) → WriteState → COp
  | readerRegister : Nat → Nat → COp
  | readerDrop : Nat → COp

/-- Effect of one combined operation on the sentinel. -/
def cstep (sen : Sentinel) : COp → Option Sentinel
  | .writer op => wstep sen op
  | .readerPollOp r waker bufRemaining backing recheck =>
      some (readerPoll sen r waker bufRemaining backing recheck).1
  | .readerRegister id w => some (registerReaderWaker sen id w)
  | .readerDrop id => some (removeReaderWaker sen id)

/-- Run a sequence of combined writer and reader operations. -/
def crun (sen : Sentinel) : List COp → Option Sentinel
  | [] => some sen
  | op :: ops =>
      match cstep sen op with
      | none => none
      | some sen1 => crun sen1 ops

/-- The committed-does-not-exceed-written invariant on a phase. -/
def invCW (s : WriteState) : Prop :=
  ∀ c w, s = .Pending c w → c ≤ w

/-- Count monotonicity between two phases, read off their `Pending`
payloads (vacuous when either side is not `Pending`). -/
def cwLE (a b : WriteState) : Prop :=
  ∀ c w c' w', a = .Pending c w → b = .Pending c' w' → c ≤ c' ∧ w ≤ w'

/-- Everything a single sentinel transition preserves: the phase never
re-enters `Pending`, `Failed` is absorbing, and (assuming the
committed-within-written invariant) the invariant is preserved and the
counts are monotone. -/
def stepOK (a b : WriteState) : Prop :=
  (a.isPendingPhase = false → b.isPendingPhase = false) ∧
  (a = .Failed → b = .Failed) ∧
  (invCW a → invCW b ∧ cwLE a b)


theorem stepOK_refl (s : WriteState) : stepOK s s := by
  unfold stepOK
  refine ⟨fun h => h, fun h => h, fun h => ⟨h, ?_⟩⟩
  intro c w c' w' h1 h2
  rw [h1] at h2
  injection h2 with hx hy
  omega

theorem stepOK_failed (a : WriteState) : stepOK a .Failed := by
  unfold stepOK
  refine ⟨fun _ => rfl, fun _ => rfl, fun _ => ⟨?_, ?_⟩⟩
  · intro c w h
    exact WriteState.noConfusion h
  · intro c w c' w' _ h
    exact WriteState.noConfusion h

theorem stepOK_pending_completed (c w k : Nat) :
    stepOK (.Pending c w) (.Completed k) := by
  unfold stepOK
  refine ⟨fun _ => rfl, fun h => WriteState.noConfusion h, fun _ => ⟨?_, ?_⟩⟩
  · intro x y h
    exact WriteState.noConfusion h
  · intro x y x' y' _ h
    exact WriteState.noConfusion h

theorem stepOK_trans {a b c : WriteState} (h1 : stepOK a b) (h2 : stepOK b c) :
    stepOK a c := by
  obtain ⟨h1p, h1f, h1i⟩ := h1
  obtain ⟨h2p, h2f, h2i⟩ := h2
  refine ⟨fun h => h2p (h1p h), fun h => h2f (h1f h), fun hinv => ?_⟩
  obtain ⟨hinvb, hab⟩ := h1i hinv
  obtain ⟨hinvc, hbc⟩ := h2i hinvb
  refine ⟨hinvc, ?_⟩
  intro x y x' y' hax hcx
  cases hb : b with
  | Pending xm ym =>
      obtain ⟨l1, l2⟩ := hab x y xm ym hax hb
      obtain ⟨l3, l4⟩ := hbc xm ym x' y' hb hcx
      exact ⟨le_trans l1 l3, le_trans l2 l4⟩
  | Completed n =>
      have hcp := h2p (by rw [hb]; rfl)
      rw [hcx] at hcp
      simp [WriteState.isPendingPhase] at hcp
  | Failed =>
      have hcp := h2p (by rw [hb]; rfl)
      rw [hcx] at hcp
      simp [WriteState.isPendingPhase] at hcp

theorem updateState_stepOK (s : WriteState) (n : Nat) :
    stepOK s (updateState s n).1 := by
  cases s with
  | Pending c w =>
      unfold stepOK
      refine ⟨?_, ?_, ?_⟩
      · intro h
        simp [WriteState.isPendingPhase] at h
      · intro h
        exact WriteState.noConfusion h
      · intro hinv
        have hc := hinv c w rfl
        simp only [updateState]
        constructor
        · intro x y hxy
          injection hxy with hx hy
          omega
        · intro x y x' y' h1 h2
          injection h1 with a1 a2
          injection h2 with b1 b2
          omega
  | Completed k => exact stepOK_refl _
  | Failed => exact stepOK_refl _

theorem syncCW_stepOK (s : WriteState) :
    stepOK s (syncCommittedAndWritten s) := by
  cases s with
  | Pending c w =>
      unfold stepOK
      refine ⟨?_, ?_, ?_⟩
      · intro h
        simp [WriteState.isPendingPhase] at h
      · intro h
        exact WriteState.noConfusion h
      · intro hinv
        have hc := hinv c w rfl
        simp only [syncCommittedAndWritten]
        constructor
        · intro x y hxy
          injection hxy with hx hy
          omega
        · intro x y x' y' h1 h2
          injection h1 with a1 a2
          injection h2 with b1 b2
          omega
  | Completed k => exact stepOK_refl _
  | Failed => exact stepOK_refl _

theorem finalizeState_stepOK {sen sen1 : Sentinel} {w1 : WakerTable}
    {res1 : Except CompleteWritingError Unit}
    (h : finalizeState sen = some (sen1, w1, res1)) :
    stepOK sen.state sen1.state := by
  obtain ⟨st, tbl⟩ := sen
  cases st with
  | Pending c w =>
      by_cases hcw : c = w
      · subst hcw
        simp [finalizeState, wakeReaders] at h
        obtain ⟨hA, hB, hC⟩ := h
        rw [← hA]
        exact stepOK_pending_completed c c c
      · simp [finalizeState, hcw] at h
  | Completed k =>
      simp [finalizeState, wakeReaders] at h
      obtain ⟨hA, hB, hC⟩ := h
      rw [← hA]
      exact stepOK_refl _
  | Failed =>
      simp [finalizeState, wakeReaders] at h
      obtain ⟨hA, hB, hC⟩ := h
      rw [← hA]
      exact stepOK_refl _

theorem completeNoSync_stepOK {sen senF : Sentinel} {wF : WakerTable}
    {resF : Except CompleteWritingError Unit}
    (h : completeNoSync sen = some (senF, wF, resF)) :
    stepOK sen.state senF.state := by
  cases h1 : finalizeState sen with
  | none => simp [completeNoSync, h1] at h
  | some o1 =>
      obtain ⟨sen1, w1, res1⟩ := o1
      cases h2 : finalizeState sen1 with
      | none => simp [completeNoSync, h1, h2] at h
      | some o2 =>
          obtain ⟨sen2, w2, res2⟩ := o2
          simp [completeNoSync, h1, h2] at h
          obtain ⟨hA, hB, hC⟩ := h
          subst hA
          exact stepOK_trans (finalizeState_stepOK h1) (finalizeState_stepOK h2)

theorem complete_stepOK {sen senF : Sentinel} {b : Except Nat Unit}
    {wF : WakerTable} {resF : Except CompleteWritingError Unit}
    (h : complete sen b = some (senF, wF, resF)) :
    stepOK sen.state senF.state := by
  cases b with
  | error e =>
      cases h1 : finalizeState sen with
      | none => simp [complete, syncAll, h1] at h
      | some o1 =>
          obtain ⟨sen1, w1, res1⟩ := o1
          simp [complete, syncAll, h1] at h
          obtain ⟨hA, hB, hC⟩ := h
          subst hA
          exact finalizeState_stepOK h1
  | ok u =>
      cases h1 : completeNoSync (⟨syncCommittedAndWritten sen.state, []⟩ : Sentinel) with
      | none => simp [complete, syncAll, wakeReaders, h1] at h
      | some o1 =>
          obtain ⟨sen1, w1, res1⟩ := o1
          simp [complete, syncAll, wakeReaders, h1] at h
          obtain ⟨hA, hB, hC⟩ := h
          subst hA
          exact stepOK_trans (syncCW_stepOK sen.state) (completeNoSync_stepOK h1)

theorem wstep_stepOK {sen sen' : Sentinel} {op : WOp}
    (h : wstep sen op = some sen') : stepOK sen.state sen'.state := by
  cases op with
  | write bufLen backing =>
      cases backing with
      | none =>
          simp [wstep, pollWrite, handlePollWriteResult] at h
          subst h
          exact stepOK_refl _
      | some res =>
          cases res with
          | ok n =>
              simp [wstep, pollWrite, handlePollWriteResult] at h
              subst h
              exact updateState_stepOK sen.state n
          | error e =>
              simp [wstep, pollWrite, handlePollWriteResult, wakeReaders] at h
              subst h
              exact stepOK_failed _
  | writeVectored totalLen backing =>
      cases backing with
      | none =>
          simp [wstep, pollWriteVectored, handlePollWriteResult] at h
          subst h
          exact stepOK_refl _
      | some res =>
          cases res with
          | ok n =>
              simp [wstep, pollWriteVectored, handlePollWriteResult] at h
              subst h
              exact updateState_stepOK sen.state n
          | error e =>
              simp [wstep, pollWriteVectored, handlePollWriteResult, wakeReaders] at h
              subst h
              exact stepOK_failed _
  | flush backing =>
      cases backing with
      | none =>
          simp [wstep, pollFlush] at h
          subst h
          exact stepOK_refl _
      | some res =>
          cases res with
          | ok u =>
              simp [wstep, pollFlush, wakeReaders] at h
              subst h
              exact syncCW_stepOK sen.state
          | error e =>
              simp [wstep, pollFlush, wakeReaders] at h
              subst h
              exact stepOK_failed _
  | syncDataOp backing =>
      cases backing with
      | error e =>
          simp [wstep, syncData] at h
          subst h
          exact stepOK_refl _
      | ok u =>
          simp [wstep, syncData, wakeReaders] at h
          subst h
          exact syncCW_stepOK sen.state
  | syncAllOp backing =>
      cases backing with
      | error e =>
          simp [wstep, syncAll] at h
          subst h
          exact stepOK_refl _
      | ok u =>
          simp [wstep, syncAll, wakeReaders] at h
          subst h
          exact syncCW_stepOK sen.state
  | shutdownOp backing =>
      cases backing with
      | none =>
          simp [wstep, pollShutdown] at h
          subst h
          exact stepOK_refl _
      | some res =>
          cases res with
          | ok u =>
              cases hst : sen.state with
              | Pending c w =>
                  simp [wstep, pollShutdown, hst] at h
                  subst h
                  exact stepOK_pending_completed c w w
              | Completed k =>
                  simp [wstep, pollShutdown, hst] at h
                  subst h
                  exact stepOK_refl _
              | Failed =>
                  simp [wstep, pollShutdown, hst] at h
                  subst h
                  exact stepOK_refl _
          | error e =>
              simp [wstep, pollShutdown] at h
              subst h
              exact stepOK_failed _
  | completeOp backing =>
      cases h1 : complete sen backing with
      | none => simp [wstep, h1] at h
      | some out =>
          obtain ⟨senF, wF, resF⟩ := out
          simp [wstep, h1] at h
          subst h
          exact complete_stepOK h1
  | completeNoSyncOp =>
      cases h1 : completeNoSync sen with
      | none => simp [wstep, h1] at h
      | some out =>
          obtain ⟨senF, wF, resF⟩ := out
          simp [wstep, h1] at h
          subst h
          exact completeNoSync_stepOK h1
  | dropOp =>
      cases h1 : finalizeState sen with
      | none => simp [wstep, dropWriter, h1] at h
      | some o1 =>
          obtain ⟨sen1, w1, res1⟩ := o1
          simp [wstep, dropWriter, h1] at h
          subst h
          exact finalizeState_stepOK h1

theorem registerReaderWaker_state (sen : Sentinel) (id w : Nat) :
    (registerReaderWaker sen id w).state = sen.state := rfl

theorem removeReaderWaker_state (sen : Sentinel) (id : Nat) :
    (removeReaderWaker sen id).state = sen.state := rfl

theorem readerPollTail_state (sen : Sentinel) (r : ReaderRec)
    (waker bufRemaining : Nat) (backing : Option (Except IoError Nat))
    (recheck : WriteState) (ct : Nat) :
    ((readerPollTail sen r waker bufRemaining backing recheck ct).1).state
      = sen.state := by
  unfold readerPollTail
  cases backing with
  | none => rfl
  | some res =>
      cases res with
      | error e => rfl
      | ok provided =>
          dsimp only
          split
          · rfl
          · cases recheck <;> rfl

theorem readerPoll_state (sen : Sentinel) (r : ReaderRec)
    (waker bufRemaining : Nat) (backing : Option (Except IoError Nat))
    (recheck : WriteState) :
    ((readerPoll sen r waker bufRemaining backing recheck).1).state
      = sen.state := by
  unfold readerPoll
  cases hst : sen.state with
  | Pending c w =>
      by_cases hb : r.bytesRead = c
      · simp [hb, registerReaderWaker_state, hst]
      · simp [hb, readerPollTail_state, hst]
  | Completed k =>
      by_cases hb : r.bytesRead = k
      · simp [hb, hst]
      · simp [hb, readerPollTail_state, hst]
  | Failed => simp [hst]

theorem cstep_stepOK {sen sen' : Sentinel} {op : COp}
    (h : cstep sen op = some sen') : stepOK sen.state sen'.state := by
  cases op with
  | writer wop => exact wstep_stepOK h
  | readerPollOp r waker br b rc =>
      simp only [cstep, Option.some.injEq] at h
      subst h
      rw [readerPoll_state]
      exact stepOK_refl _
  | readerRegister id w =>
      simp only [cstep, Option.some.injEq] at h
      subst h
      exact stepOK_refl _
  | readerDrop id =>
      simp only [cstep, Option.some.injEq] at h
      subst h
      exact stepOK_refl _

theorem wrun_stepOK {sen sen' : Sentinel} {ops : List WOp}
    (h : wrun sen ops = some sen') : stepOK sen.state sen'.state := by
  induction ops generalizing sen with
  | nil =>
      simp only [wrun, Option.some.injEq] at h
      subst h
      exact stepOK_refl _
  | cons op ops ih =>
      cases h1 : wstep sen op with
      | none => simp [wrun, h1] at h
      | some sen1 =>
          simp only [wrun, h1] at h
          exact stepOK_trans (wstep_stepOK h1) (ih h)

theorem crun_stepOK {sen sen' : Sentinel} {ops : List COp}
    (h : crun sen ops = some sen') : stepOK sen.state sen'.state := by
  induction ops generalizing sen with
  | nil =>
      simp only [crun, Option.some.injEq] at h
      subst h
      exact stepOK_refl _
  | cons op ops ih =>
      cases h1 : cstep sen op with
      | none => simp [crun, h1] at h
      | some sen1 =>
          simp only [crun, h1] at h
          exact stepOK_trans (cstep_stepOK h1) (ih h)

theorem lookup_registerWaker (id w : Nat) (tbl : WakerTable) :
    List.lookup id (registerWaker id w tbl) = some w := by
  induction tbl with
  | nil => simp [registerWaker, List.lookup]
  | cons p rest ih =>
      obtain ⟨i, x⟩ := p
      by_cases hi : i = id
      · subst hi
        simp [registerWaker, List.lookup]
      · simp only [registerWaker, if_neg hi]
        rw [List.lookup_cons]
        have hne : (id == i) = false := by
          simp [Ne.symm hi]
        rw [hne]
        exact ih

/-- Helper for claim C2: between two `Pending` states of one writer step,
the committed count only changes on a successful `flush`, `sync_all` or
`sync_data`, and then it is promoted to the written count. -/
theorem committed_advance_only_by_sync {sen sen1 : Sentinel} {op : WOp}
    {c w c1 w1 : Nat} (hst : sen.state = .Pending c w)
    (h : wstep sen op = some sen1) (hst1 : sen1.state = .Pending c1 w1)
    (hne : c1 ≠ c) :
    (op = .flush (some (.ok ())) ∨ op = .syncAllOp (.ok ()) ∨
      op = .syncDataOp (.ok ())) ∧ c1 = w ∧ w1 = w := by
  obtain ⟨st, tbl⟩ := sen
  simp only at hst
  subst hst
  cases op with
  | write len b =>
      rcases b with _ | res
      · simp [wstep, pollWrite, handlePollWriteResult] at h
        subst h
        simp at hst1
        omega
      · rcases res with e | n
        · simp [wstep, pollWrite, handlePollWriteResult, wakeReaders] at h
          subst h
          simp at hst1
        · simp [wstep, pollWrite, handlePollWriteResult, updateState] at h
          subst h
          simp at hst1
          omega
  | writeVectored len b =>
      rcases b with _ | res
      · simp [wstep, pollWriteVectored, handlePollWriteResult] at h
        subst h
        simp at hst1
        omega
      · rcases res with e | n
        · simp [wstep, pollWriteVectored, handlePollWriteResult, wakeReaders] at h
          subst h
          simp at hst1
        · simp [wstep, pollWriteVectored, handlePollWriteResult, updateState] at h
          subst h
          simp at hst1
          omega
  | flush b =>
      rcases b with _ | res
      · simp [wstep, pollFlush] at h
        subst h
        simp at hst1
        omega
      · rcases res with e | u
        · simp [wstep, pollFlush, wakeReaders] at h
          subst h
          simp at hst1
        · simp [wstep, pollFlush, wakeReaders, syncCommittedAndWritten] at h
          subst h
          simp at hst1
          exact ⟨Or.inl rfl, hst1.1.symm, hst1.2.symm⟩
  | syncDataOp b =>
      rcases b with e | u
      · simp [wstep, syncData] at h
        subst h
        simp at hst1
        omega
      · simp [wstep, syncData, wakeReaders, syncCommittedAndWritten] at h
        subst h
        simp at hst1
        exact ⟨Or.inr (Or.inr rfl), hst1.1.symm, hst1.2.symm⟩
  | syncAllOp b =>
      rcases b with e | u
      · simp [wstep, syncAll] at h
        subst h
        simp at hst1
        omega
      · simp [wstep, syncAll, wakeReaders, syncCommittedAndWritten] at h
        subst h
        simp at hst1
        exact ⟨Or.inr (Or.inl rfl), hst1.1.symm, hst1.2.symm⟩
  | shutdownOp b =>
      rcases b with _ | res
      · simp [wstep, pollShutdown] at h
        subst h
        simp at hst1
        omega
      · rcases res with e | u
        · simp [wstep, pollShutdown] at h
          subst h
          simp at hst1
        · simp [wstep, pollShutdown] at h
          subst h
          simp at hst1
  | completeOp b =>
      rcases b with e | u
      · by_cases hcw : c = w
        · subst hcw
          simp [wstep, complete, syncAll, finalizeState, wakeReaders] at h
          subst h
          simp at hst1
        · simp [wstep, complete, syncAll, finalizeState, hcw] at h
      · by_cases hcw : w = w
        · simp [wstep, complete, syncAll, wakeReaders, completeNoSync,
            finalizeState, syncCommittedAndWritten] at h
          subst h
          simp at hst1
        · omega
  | completeNoSyncOp =>
      by_cases hcw : c = w
      · subst hcw
        simp [wstep, completeNoSync, finalizeState, wakeReaders] at h
        subst h
        simp at hst1
      · simp [wstep, completeNoSync, finalizeState, hcw] at h
  | dropOp =>
      by_cases hcw : c = w
      · subst hcw
        simp [wstep, dropWriter, finalizeState, wakeReaders] at h
        subst h
        simp at hst1
      · simp [wstep, dropWriter, finalizeState, hcw] at h

/-- C1, counterexample: the claim says every writer operation turns a
backing I/O error into phase `Failed` plus a `wake_all`; but a failing
`sync_all` (here on the initial state, with one parked reader) is
propagated by the `?` operator before any state store or wake: the phase
stays `Pending(0, 0)`, the parked reader stays parked, and nobody is
woken.  This falsifies the claim at a concrete input. -/
theorem C1_counterexample :
    (syncAll ⟨.Pending 0 0, [(1, 10)]⟩ (.error 5)).1.state = .Pending 0 0 ∧
    (syncAll ⟨.Pending 0 0, [(1, 10)]⟩ (.error 5)).1.wakers = [(1, 10)] ∧
    (syncAll ⟨.Pending 0 0, [(1, 10)]⟩ (.error 5)).2.1 = [] ∧
    (syncAll ⟨.Pending 0 0, [(1, 10)]⟩ (.error 5)).2.2 = .error 5 ∧
    (WriteState.Pending 0 0 ≠ .Failed) := by
  exact ⟨rfl, rfl, rfl, rfl, by decide⟩

/-- C1, amended: on a backing I/O error, `write`, `write_vectored` and
`flush` return the error, store phase `Failed` and wake (drain) all
parked readers; `shutdown` returns the error and stores `Failed` but
wakes nobody; `sync_all` and `sync_data` merely propagate the error,
leaving both the phase and the waker table untouched. -/
theorem C1_amended_writer_error_behavior (sen : Sentinel) (e : IoError)
    (k len : Nat) :
    pollWrite sen len (some (.error e))
      = (⟨.Failed, []⟩, sen.wakers, some (.error e)) ∧
    pollWriteVectored sen len (some (.error e))
      = (⟨.Failed, []⟩, sen.wakers, some (.error e)) ∧
    pollFlush sen (some (.error e))
      = (⟨.Failed, []⟩, sen.wakers, some (.error e)) ∧
    pollShutdown sen (some (.error e))
      = (⟨.Failed, sen.wakers⟩, [], some (.error e)) ∧
    syncAll sen (.error k) = (sen, [], .error k) ∧
    syncData sen (.error k) = (sen, [], .error k) := by
  exact ⟨rfl, rfl, rfl, rfl, rfl, rfl⟩

/-- C2: from any `Pending(c, w)` state, a successful `flush`, `sync_all`
or `sync_data` stores `Pending(w, w)` (committed is promoted to
written), a successful `write` or `write_vectored` that the backing file
accepted `n` bytes of stores `Pending(c, w + n)` (only written advances,
by the accepted count, independent of the requested length), and across
all writer operations a step between `Pending` states that changes the
committed count is exactly a successful flush or sync, which sets it to
the written count. -/
theorem C2_frontier_promotion (sen : Sentinel) (c w n len : Nat)
    (hst : sen.state = .Pending c w) :
    ((pollFlush sen (some (.ok ()))).1.state = .Pending w w) ∧
    ((syncAll sen (.ok ())).1.state = .Pending w w) ∧
    ((syncData sen (.ok ())).1.state = .Pending w w) ∧
    ((pollWrite sen len (some (.ok n))).1.state = .Pending c (w + n)) ∧
    ((pollWriteVectored sen len (some (.ok n))).1.state = .Pending c (w + n)) ∧
    (∀ op sen1 c1 w1, wstep sen op = some sen1 → sen1.state = .Pending c1 w1 →
      c1 ≠ c →
      (op = .flush (some (.ok ())) ∨ op = .syncAllOp (.ok ()) ∨
        op = .syncDataOp (.ok ())) ∧ c1 = w ∧ w1 = w) := by
  obtain ⟨st, tbl⟩ := sen
  simp only at hst
  subst hst
  refine ⟨rfl, rfl, rfl, rfl, rfl, ?_⟩
  intro op sen1 c1 w1 h h1 hne
  exact committed_advance_only_by_sync rfl h h1 hne

/-- Witness for C2 at the concrete state `Pending(1, 3)` with an accepted
write of 2 bytes. -/
theorem C2_frontier_promotion_witness :
    (Sentinel.mk (.Pending 1 3) []).state = .Pending 1 3 ∧
    ((pollFlush ⟨.Pending 1 3, []⟩ (some (.ok ()))).1.state = .Pending 3 3 ∧
      (syncAll ⟨.Pending 1 3, []⟩ (.ok ())).1.state = .Pending 3 3 ∧
      (syncData ⟨.Pending 1 3, []⟩ (.ok ())).1.state = .Pending 3 3 ∧
      (pollWrite ⟨.Pending 1 3, []⟩ 9 (some (.ok 2))).1.state = .Pending 1 (3 + 2) ∧
      (pollWriteVectored ⟨.Pending 1 3, []⟩ 9 (some (.ok 2))).1.state = .Pending 1 (3 + 2) ∧
      (∀ op sen1 c1 w1, wstep ⟨.Pending 1 3, []⟩ op = some sen1 →
        sen1.state = .Pending c1 w1 → c1 ≠ 1 →
        (op = .flush (some (.ok ())) ∨ op = .syncAllOp (.ok ()) ∨
          op = .syncDataOp (.ok ())) ∧ c1 = 3 ∧ w1 = 3)) :=
  ⟨rfl, C2_frontier_promotion ⟨.Pending 1 3, []⟩ 1 3 2 9 rfl⟩

/-- C4, counterexample: the claim says a terminal phase never becomes
the other terminal phase; but after a successful `shutdown` has set
`Completed(0)`, a write whose backing call fails stores `Failed`: the
phase transitions `Completed` to `Failed`. -/
theorem C4_counterexample :
    wstep ⟨.Pending 0 0, []⟩ (.shutdownOp (some (.ok ())))
      = some ⟨.Completed 0, []⟩ ∧
    wstep ⟨.Completed 0, []⟩ (.write 1 (some (.error (.backing 7))))
      = some ⟨.Failed, []⟩ := by
  exact ⟨rfl, rfl⟩

/-- C4, amended: across every sequence of writer and reader operations,
once the phase has left `Pending` it never returns to `Pending`, and
`Failed` is never left (in particular `Failed` never becomes
`Completed`); however `Completed` can still transition to `Failed` when
a later write, flush or shutdown observes a backing I/O error. -/
theorem C4_amended_terminality (sen sen1 : Sentinel) (ops : List COp)
    (h : crun sen ops = some sen1) :
    (sen.state.isPendingPhase = false → sen1.state.isPendingPhase = false) ∧
    (sen.state = .Failed → sen1.state = .Failed) := by
  have hs := crun_stepOK h
  exact ⟨hs.1, hs.2.1⟩

/-- Witness for C4 (amended) on a concrete two-operation run from a
`Completed` state. -/
theorem C4_amended_terminality_witness :
    crun ⟨.Completed 3, [(1, 10)]⟩
        [.writer .dropOp, .readerRegister 2 11] = some ⟨.Completed 3, [(2, 11)]⟩ ∧
    (((Sentinel.mk (.Completed 3) [(1, 10)]).state.isPendingPhase = false →
        (Sentinel.mk (.Completed 3) [(2, 11)]).state.isPendingPhase = false) ∧
      ((Sentinel.mk (.Completed 3) [(1, 10)]).state = .Failed →
        (Sentinel.mk (.Completed 3) [(2, 11)]).state = .Failed)) :=
  ⟨by decide, C4_amended_terminality ⟨.Completed 3, [(1, 10)]⟩
      ⟨.Completed 3, [(2, 11)]⟩ [.writer .dropOp, .readerRegister 2 11] (by decide)⟩

/-- C5, counterexample: the claim says a failing embedded sync still
leaves `complete()` returning `SyncError` with the state moved out of
`Pending`; but from `Pending(0, 5)` (unsynced bytes, the typical case
for a failing sync) the drop of the consumed writer hits the
`assert_eq!(committed, written)` in `finalize_state` and panics: no
`SyncError` is returned and the state is never stored, remaining
`Pending(0, 5)`.  The panic is modelled as `none`. -/
theorem C5_counterexample :
    complete ⟨.Pending 0 5, []⟩ (.error 3) = none := by
  rfl

/-- C5, amended: when the embedded `sync_all` of `complete()` fails, no
state transition happens inside `complete` itself; the drop of the
consumed writer then finalizes it.  If committed equals written the drop
stores `Completed(written)`, wakes all parked readers and `complete`
returns `SyncError`; if committed differs from written the assertion
in the drop panics and the state stays untouched. -/
theorem C5_amended_complete_sync_failure (sen : Sentinel) (c w k : Nat) :
    (sen.state = .Pending c c →
      complete sen (.error k)
        = some (⟨.Completed c, []⟩, sen.wakers, .error .SyncError)) ∧
    (sen.state = .Pending c w → c ≠ w → complete sen (.error k) = none) := by
  obtain ⟨st, tbl⟩ := sen
  constructor
  · intro hst
    simp only at hst
    subst hst
    simp [complete, syncAll, finalizeState, wakeReaders]
  · intro hst hcw
    simp only at hst
    subst hst
    simp [complete, syncAll, finalizeState, hcw]

/-- Witness for C5 (amended) at `Pending(2, 2)` with a parked reader,
and at `Pending(0, 5)` for the panic branch. -/
theorem C5_amended_complete_sync_failure_witness :
    (((Sentinel.mk (.Pending 2 2) [(1, 5)]).state = .Pending 2 2 →
        complete ⟨.Pending 2 2, [(1, 5)]⟩ (.error 3)
          = some (⟨.Completed 2, []⟩, [(1, 5)], .error .SyncError)) ∧
      ((Sentinel.mk (.Pending 2 2) [(1, 5)]).state = .Pending 2 5 → 2 ≠ 5 →
        complete ⟨.Pending 2 2, [(1, 5)]⟩ (.error 3) = none)) :=
  C5_amended_complete_sync_failure ⟨.Pending 2 2, [(1, 5)]⟩ 2 5 3

/-- C6, counterexample: the claim says dropping the writer in any
`Pending(committed, written)` state finalizes to `Completed(written)`
and wakes the parked readers; but with `Pending(0, 5)` (committed less
than written, i.e. unsynced bytes) the `assert_eq!` in `finalize_state`
panics: nothing is stored and nobody is woken.  The panic is modelled as
`none`. -/
theorem C6_counterexample :
    dropWriter ⟨.Pending 0 5, [(1, 10)]⟩ = none := by
  rfl

/-- C6, amended: dropping the writer while `Pending(w, w)` (committed
equals written) stores `Completed(w)` and wakes (drains) all parked
readers; the drop consults no backing-file operation at all, so no flush
of OS buffers happens (structurally: `dropWriter` takes no backing
outcome).  When committed differs from written the drop panics instead. -/
theorem C6_amended_drop_finalizes (sen : Sentinel) (w : Nat)
    (hst : sen.state = .Pending w w) :
    dropWriter sen = some (⟨.Completed w, []⟩, sen.wakers) := by
  obtain ⟨st, tbl⟩ := sen
  simp only at hst
  subst hst
  simp [dropWriter, finalizeState, wakeReaders]

/-- Witness for C6 (amended) at `Pending(4, 4)` with two parked readers. -/
theorem C6_amended_drop_finalizes_witness :
    (Sentinel.mk (.Pending 4 4) [(1, 10), (2, 20)]).state = .Pending 4 4 ∧
    dropWriter ⟨.Pending 4 4, [(1, 10), (2, 20)]⟩
      = some (⟨.Completed 4, []⟩, [(1, 10), (2, 20)]) :=
  ⟨rfl, C6_amended_drop_finalizes ⟨.Pending 4 4, [(1, 10), (2, 20)]⟩ 4 rfl⟩

/-- C7, counterexample: the claim says any non-zero-length write after
`Completed` fails with the file-closed error and the phase stays
`Completed`; but the rejection is decided on the count the backing file
accepted, not the requested length: a 1-byte write of which the backing
file accepts 0 bytes succeeds with `Ok(0)`, and a 1-byte write whose
backing call errors moves the phase to `Failed` instead of leaving it
`Completed`. -/
theorem C7_counterexample :
    (pollWrite ⟨.Completed 0, []⟩ 1 (some (.ok 0))).2.2 = some (.ok 0) ∧
    (pollWrite ⟨.Completed 0, []⟩ 1 (some (.error (.backing 7)))).1.state
      = .Failed := by
  exact ⟨rfl, rfl⟩

/-- C7, amended: in the `Completed` phase the outcome of a write is
decided on the byte count the backing file accepted: a write of which
`n` is not zero bytes were accepted fails with the broken-pipe
`WriteError::FileClosed` error and leaves the sentinel unchanged (phase
stays `Completed`, no wake); a write of which 0 bytes were accepted
returns `Ok(0)`. -/
theorem C7_amended_write_after_completed (sen : Sentinel) (count len n : Nat)
    (hst : sen.state = .Completed count) :
    (n ≠ 0 → pollWrite sen len (some (.ok n))
        = (sen, [], some (.error .writeFileClosed))) ∧
    (pollWrite sen len (some (.ok 0)) = (sen, [], some (.ok 0))) ∧
    IoError.kind .writeFileClosed = .BrokenPipe := by
  obtain ⟨st, tbl⟩ := sen
  simp only at hst
  subst hst
  refine ⟨?_, ?_, rfl⟩
  · intro hn
    simp [pollWrite, handlePollWriteResult, updateState, hn]
  · simp [pollWrite, handlePollWriteResult, updateState]

/-- Witness for C7 (amended) at `Completed(9)` with a 3-byte accepted
write. -/
theorem C7_amended_write_after_completed_witness :
    (Sentinel.mk (.Completed 9) [(1, 10)]).state = .Completed 9 ∧
    ((3 ≠ 0 → pollWrite ⟨.Completed 9, [(1, 10)]⟩ 5 (some (.ok 3))
        = (⟨.Completed 9, [(1, 10)]⟩, [], some (.error .writeFileClosed))) ∧
      (pollWrite ⟨.Completed 9, [(1, 10)]⟩ 5 (some (.ok 0))
        = (⟨.Completed 9, [(1, 10)]⟩, [], some (.ok 0))) ∧
      IoError.kind .writeFileClosed = .BrokenPipe) :=
  ⟨rfl, C7_amended_write_after_completed ⟨.Completed 9, [(1, 10)]⟩ 9 5 3 rfl⟩

/-- Helper: whenever the tail of the reader poll (after frontier
selection) delivers a positive number of bytes, that number fits under
the frontier `ct` the snapshot provided, because the backing read ran on
a buffer clamped to `ct - bytes_read`. -/
theorem readerPollTail_readyOk_le (sen : Sentinel) (r : ReaderRec)
    (waker br : Nat) (backing : Option (Except IoError Nat))
    (recheck : WriteState) (ct n : Nat)
    (hres : (readerPollTail sen r waker br backing recheck ct).2.2
      = .readyOk n) (hn : 0 < n) : r.bytesRead + n ≤ ct := by
  unfold readerPollTail at hres
  cases backing with
  | none => simp at hres
  | some res =>
      cases res with
      | error e => simp at hres
      | ok provided =>
          dsimp only at hres
          split at hres
          · rename_i hz
            simp at hres
            omega
          · rename_i hz
            cases recheck with
            | Pending a b => simp at hres
            | Completed s => simp at hres; omega
            | Failed => simp at hres

/-- Helper: whenever the tail of the reader poll returns `Pending`, the
waker of the reader has just been registered (inserted or replaced)
in the table under its id. -/
theorem readerPollTail_pending_registered (sen : Sentinel) (r : ReaderRec)
    (waker br : Nat) (backing : Option (Except IoError Nat))
    (recheck : WriteState) (ct : Nat)
    (hres : (readerPollTail sen r waker br backing recheck ct).2.2
      = .pending) :
    List.lookup r.id
      ((readerPollTail sen r waker br backing recheck ct).1).wakers
        = some waker := by
  unfold readerPollTail
  cases backing with
  | none =>
      exact lookup_registerWaker r.id waker sen.wakers
  | some res =>
      cases res with
      | error e =>
          unfold readerPollTail at hres
          simp at hres
      | ok provided =>
          dsimp only
          unfold readerPollTail at hres
          dsimp only at hres
          split at hres <;> split <;> first
            | (rename_i h1 h2; try exact absurd h1 h2)
            | skip
          all_goals try simp_all
          all_goals cases recheck <;> simp_all [registerReaderWaker,
            removeReaderWaker, lookup_registerWaker]

/-- C3: whenever a reader poll delivers `n` greater than 0 bytes, the
prior `bytes_read` of the reader plus `n` stays within the frontier of the
phase snapshot taken at the start of that poll: within `committed` if
the snapshot was `Pending`, within the final `size` if it was
`Completed`.  The clamp `min (frontier - bytes_read) buf.remaining` on
the read buffer enforces this for every backing-read outcome. -/
theorem C3_reader_clamped_to_frontier (sen : Sentinel) (r : ReaderRec)
    (waker bufRemaining : Nat) (backing : Option (Except IoError Nat))
    (recheck : WriteState) (n : Nat)
    (hres : (readerPoll sen r waker bufRemaining backing recheck).2.2
      = .readyOk n) (hn : 0 < n) :
    (∀ c w, sen.state = .Pending c w → r.bytesRead + n ≤ c) ∧
    (∀ s, sen.state = .Completed s → r.bytesRead + n ≤ s) := by
  cases hst : sen.state with
  | Pending c w =>
      constructor
      · intro c0 w0 heq
        injection heq with h1 h2
        subst h1
        by_cases hb : r.bytesRead = c
        · simp [readerPoll, hst, hb] at hres
        · simp only [readerPoll, hst, if_neg hb] at hres
          exact readerPollTail_readyOk_le sen r waker bufRemaining backing
            recheck c n hres hn
      · intro s heq
        exact WriteState.noConfusion heq
  | Completed k =>
      constructor
      · intro c0 w0 heq
        exact WriteState.noConfusion heq
      · intro s heq
        injection heq with h1
        subst h1
        by_cases hb : r.bytesRead = k
        · simp [readerPoll, hst, hb] at hres
          omega
        · simp only [readerPoll, hst, if_neg hb] at hres
          exact readerPollTail_readyOk_le sen r waker bufRemaining backing
            recheck k n hres hn
  | Failed =>
      simp [readerPoll, hst] at hres

/-- Witness for C3: a reader at offset 0 over snapshot `Pending(2, 5)`
with a 10-byte buffer and a backing file offering 9 bytes gets exactly 2
bytes — the committed frontier. -/
theorem C3_reader_clamped_to_frontier_witness :
    (readerPoll ⟨.Pending 2 5, []⟩ ⟨7, 0⟩ 3 10 (some (.ok 9))
      (.Pending 2 5)).2.2 = .readyOk 2 ∧ 0 < 2 ∧
    ((∀ c w, (Sentinel.mk (.Pending 2 5) []).state = .Pending c w →
        (ReaderRec.mk 7 0).bytesRead + 2 ≤ c) ∧
      (∀ s, (Sentinel.mk (.Pending 2 5) []).state = .Completed s →
        (ReaderRec.mk 7 0).bytesRead + 2 ≤ s)) :=
  ⟨rfl, by decide,
    C3_reader_clamped_to_frontier ⟨.Pending 2 5, []⟩ ⟨7, 0⟩ 3 10
      (some (.ok 9)) (.Pending 2 5) 2 rfl (by decide)⟩

/-- C8: starting from the initial state `Pending(0, 0)` installed by the
`SharedFile` constructor, every reachable `Pending` state satisfies
committed at most written, and across any further writer operations two
reachable `Pending` states have non-decreasing committed and written
counts. -/
theorem C8_monotonicity (ops ops2 : List WOp) (s s2 : Sentinel)
    (c w c2 w2 : Nat) (h : wrun initSentinel ops = some s) :
    (∀ x y, s.state = .Pending x y → x ≤ y) ∧
    (wrun s ops2 = some s2 → s.state = .Pending c w →
      s2.state = .Pending c2 w2 → c ≤ c2 ∧ w ≤ w2) := by
  have h1 := wrun_stepOK h
  have hinit : invCW initSentinel.state := by
    intro x y hxy
    injection hxy with a b
    omega
  obtain ⟨hinv, hle⟩ := h1.2.2 hinit
  refine ⟨hinv, ?_⟩
  intro h2 hp hp2
  obtain ⟨hinv2, hle2⟩ := (wrun_stepOK h2).2.2 hinv
  exact hle2 c w c2 w2 hp hp2

/-- Witness for C8 on the concrete run write-3, flush, then write-2. -/
theorem C8_monotonicity_witness :
    wrun initSentinel [.write 3 (some (.ok 3)), .flush (some (.ok ()))]
      = some ⟨.Pending 3 3, []⟩ ∧
    ((∀ x y, (Sentinel.mk (.Pending 3 3) []).state = .Pending x y → x ≤ y) ∧
      (wrun ⟨.Pending 3 3, []⟩ [.write 2 (some (.ok 2))]
          = some ⟨.Pending 3 5, []⟩ →
        (Sentinel.mk (.Pending 3 3) []).state = .Pending 3 3 →
        (Sentinel.mk (.Pending 3 5) []).state = .Pending 3 5 →
        3 ≤ 3 ∧ 3 ≤ 5)) :=
  ⟨by decide,
    C8_monotonicity [.write 3 (some (.ok 3)), .flush (some (.ok ()))]
      [.write 2 (some (.ok 2))] ⟨.Pending 3 3, []⟩ ⟨.Pending 3 5, []⟩
      3 3 3 5 (by decide)⟩

/-- C9: every reader poll that returns `Pending` has, in that same
invocation, registered (inserted or replaced) the waker of the reader in the
table under its id; in particular a reader whose `bytes_read` equals the
snapshot committed count returns `Pending`, delivers zero bytes (its
record is unchanged), and its waker is registered. -/
theorem C9_pending_implies_registered (sen : Sentinel) (r : ReaderRec)
    (waker bufRemaining : Nat) (backing : Option (Except IoError Nat))
    (recheck : WriteState) :
    ((readerPoll sen r waker bufRemaining backing recheck).2.2 = .pending →
      List.lookup r.id
        ((readerPoll sen r waker bufRemaining backing recheck).1).wakers
          = some waker) ∧
    (∀ c w, sen.state = .Pending c w → r.bytesRead = c →
      (readerPoll sen r waker bufRemaining backing recheck).2.2 = .pending ∧
      (readerPoll sen r waker bufRemaining backing recheck).2.1 = r ∧
      List.lookup r.id
        ((readerPoll sen r waker bufRemaining backing recheck).1).wakers
          = some waker) := by
  constructor
  · intro hres
    cases hst : sen.state with
    | Pending c w =>
        by_cases hb : r.bytesRead = c
        · simp only [readerPoll, hst, if_pos hb]
          exact lookup_registerWaker r.id waker sen.wakers
        · simp only [readerPoll, hst, if_neg hb] at hres ⊢
          exact readerPollTail_pending_registered sen r waker bufRemaining
            backing recheck c hres
    | Completed k =>
        by_cases hb : r.bytesRead = k
        · simp [readerPoll, hst, hb] at hres
        · simp only [readerPoll, hst, if_neg hb] at hres ⊢
          exact readerPollTail_pending_registered sen r waker bufRemaining
            backing recheck k hres
    | Failed => simp [readerPoll, hst] at hres
  · intro c w hst hb
    simp only [readerPoll, hst, if_pos hb]
    exact ⟨by trivial, by trivial, lookup_registerWaker r.id waker sen.wakers⟩

/-- Witness for C9: a reader with id 5 at the frontier of
`Pending(4, 6)` registers waker 42 and parks. -/
theorem C9_pending_implies_registered_witness :
    ((readerPoll ⟨.Pending 4 6, [(5, 1)]⟩ ⟨5, 4⟩ 42 10 none
        (.Pending 4 6)).2.2 = .pending ∧
      (readerPoll ⟨.Pending 4 6, [(5, 1)]⟩ ⟨5, 4⟩ 42 10 none
        (.Pending 4 6)).2.1 = ⟨5, 4⟩ ∧
      List.lookup 5 ((readerPoll ⟨.Pending 4 6, [(5, 1)]⟩ ⟨5, 4⟩ 42 10 none
        (.Pending 4 6)).1).wakers = some 42) :=
  (C9_pending_implies_registered ⟨.Pending 4 6, [(5, 1)]⟩ ⟨5, 4⟩ 42 10 none
    (.Pending 4 6)).2 4 6 rfl rfl

/-- C10: the writer submits the buffer to the backing file before the
phase is consulted, so the result of a write is a function of the byte
count the backing file accepted, never of the requested length (the two
arguments are interchangeable); a write in the `Failed` phase whose
bytes the backing file accepted returns the generic `ErrorKind::Other`
error — distinct from the broken-pipe `FileClosed` used for reads —
while a backing error in the `Failed` phase is returned as-is; in the
`Completed` phase the rejection triggers exactly when the accepted count
is non-zero. -/
theorem C10_write_decided_on_accepted_count (sen : Sentinel)
    (len1 len2 n count : Nat) (e : IoError)
    (b : Option (Except IoError Nat)) :
    (pollWrite sen len1 b = pollWrite sen len2 b) ∧
    (sen.state = .Failed →
      pollWrite sen len1 (some (.ok n))
        = (sen, [], some (.error .otherError))) ∧
    IoError.kind .otherError = .Other ∧
    IoError.otherError ≠ .readFileClosed ∧
    (sen.state = .Failed →
      pollWrite sen len1 (some (.error e))
        = (⟨.Failed, []⟩, sen.wakers, some (.error e))) ∧
    (sen.state = .Completed count → n ≠ 0 →
      (pollWrite sen len1 (some (.ok n))).2.2
        = some (.error .writeFileClosed)) ∧
    (sen.state = .Completed count →
      (pollWrite sen len1 (some (.ok 0))).2.2 = some (.ok 0)) := by
  obtain ⟨st, tbl⟩ := sen
  refine ⟨rfl, ?_, rfl, by decide, ?_, ?_, ?_⟩
  · intro hst
    simp only at hst
    subst hst
    simp [pollWrite, handlePollWriteResult, updateState]
  · intro hst
    rfl
  · intro hst hn
    simp only at hst
    subst hst
    simp [pollWrite, handlePollWriteResult, updateState, hn]
  · intro hst
    simp only at hst
    subst hst
    simp [pollWrite, handlePollWriteResult, updateState]

/-- Witness for C10 at the `Failed` phase with accepted count 1 and at
`Completed(9)` with accepted counts 3 and 0. -/
theorem C10_write_decided_on_accepted_count_witness :
    pollWrite ⟨.Failed, [(1, 2)]⟩ 4 (some (.ok 1))
      = (⟨.Failed, [(1, 2)]⟩, [], some (.error .otherError)) ∧
    pollWrite ⟨.Failed, [(1, 2)]⟩ 4 (some (.error (.backing 7)))
      = (⟨.Failed, []⟩, [(1, 2)], some (.error (.backing 7))) ∧
    (pollWrite ⟨.Completed 9, []⟩ 4 (some (.ok 3))).2.2
      = some (.error .writeFileClosed) ∧
    (pollWrite ⟨.Completed 9, []⟩ 4 (some (.ok 0))).2.2 = some (.ok 0) :=
  ⟨(C10_write_decided_on_accepted_count ⟨.Failed, [(1, 2)]⟩ 4 4 1 9
      (.backing 7) none).2.1 rfl,
    (C10_write_decided_on_accepted_count ⟨.Failed, [(1, 2)]⟩ 4 4 1 9
      (.backing 7) none).2.2.2.2.1 rfl,
    (C10_write_decided_on_accepted_count ⟨.Completed 9, []⟩ 4 4 3 9
      (.backing 7) none).2.2.2.2.2.1 rfl (by decide),
    (C10_write_decided_on_accepted_count ⟨.Completed 9, []⟩ 4 4 0 9
      (.backing 7) none).2.2.2.2.2.2 rfl⟩

end SharedFiles
